import Mathlib

/-!
# Verification of the build-validate-repair loop (`src/validator.py`)

A shallow embedding of the validation loop of the `spielberg` repository.
External collaborators (the deployment client, the Anthropic repair service,
the dataset API) are modelled as oracles: each loop pass reads a `PassEnv`
record holding the outcomes those external calls would produce at that
pass.  All control flow, string handling and result construction is
translated from `src/validator.py` line by line.
-/

namespace Spielberg

/-- Python dict lookup on an association list (`d.get(k)` / `d[k]`).
Python dicts keep one entry per key; `dictInsert` below preserves that. -/
def dictGet {α β : Type} [DecidableEq α] (d : List (α × β)) (k : α) : Option β :=
  (d.find? (fun kv => kv.1 = k)).map (fun kv => kv.2)

/-- Python dict assignment `d[k] = v`: update in place when the key exists,
append otherwise (insertion order preserved, as in CPython). -/
def dictInsert {α β : Type} [DecidableEq α] (d : List (α × β)) (k : α) (v : β) :
    List (α × β) :=
  if d.any (fun kv => kv.1 = k) then
    d.map (fun kv => if kv.1 = k then (k, v) else kv)
  else
    d ++ [(k, v)]

/-- Python string slice `s[-n:]`: the last `n` characters (whole string when
`n` exceeds the length). -/
def pyTail (s : String) (n : Nat) : String :=
  ⟨s.data.drop (s.data.length - n)⟩

/-- Rendering of `f'{x}'` on an optional string: Python prints `None` for the null value. -/
def pyShowOpt : Option String → String
  | some s => s
  | none => "None"

/-- A mapping from relative file path to file content, as produced by
`ActorGenerator.generate` (a Python dict). -/
abbrev FileSet := List (String × String)

/-- One declared input field of a Requirements record: `field.get('name')`
and `field.get('default')` may each be absent (`None`). -/
structure InputField where
  name : Option String
  default : Option String
deriving DecidableEq, Repr

/-- The part of the Requirements record the validator reads:
`requirements.get('input_fields', [])`. -/
structure Requirements where
  input_fields : List InputField
deriving DecidableEq, Repr

/-- Test-input synthesis of `_test_actor_run` (validator.py lines 214-219):
for each field whose default is not `None`, set `test_input[name] = default`;
fields without a default contribute nothing. -/
def prepare_test_input (requirements : Requirements) : List (Option String × String) :=
  requirements.input_fields.foldl
    (fun test_input field =>
      match field.default with
      | some default_value => dictInsert test_input field.name default_value
      | none => test_input)
    []

instance {ε α : Type} [DecidableEq ε] [DecidableEq α] : DecidableEq (Except ε α) :=
  fun x y =>
    match x, y with
    | .ok a, .ok b =>
      if h : a = b then .isTrue (by rw [h])
      else .isFalse (by intro hh; cases hh; exact h rfl)
    | .error a, .error b =>
      if h : a = b then .isTrue (by rw [h])
      else .isFalse (by intro hh; cases hh; exact h rfl)
    | .ok _, .error _ => .isFalse (by intro h; cases h)
    | .error _, .ok _ => .isFalse (by intro h; cases h)

/-- The fields of the run record that `_test_actor_run` reads:
`run['id']`, `run.get('status')`, `run.get('defaultDatasetId')`. -/
structure RunInfo where
  id : String
  status : Option String
  defaultDatasetId : Option String
deriving DecidableEq, Repr

/-- Oracle for one probe (`_test_actor_run`): outcomes of the external calls
it makes.  `callRun` is `client.actor(actor_id).call(...)` (error = exception
message), `runLog` is `client.log(run_id).get()`, `itemCount` is the dataset
fetch plus `dataset.get('itemCount', 0)` (error = exception raised while
fetching the dataset). -/
structure ProbeEnv where
  callRun : Except String RunInfo
  runLog : Except String String
  itemCount : Except String Nat
deriving DecidableEq, Repr

/-- Result record of `_test_actor_run` (validator.py lines 196-286). -/
structure TestResult where
  success : Bool
  item_count : Nat
  message : String
  log : String
deriving DecidableEq, Repr

/-- Model of `_test_actor_run` (validator.py lines 196-286).  The function catches all
exceptions internally and always returns a result record; external call
outcomes come from the `ProbeEnv` oracle.  An exception raised by the run
invocation or the dataset fetch lands in the outer `except` (lines 279-286);
a failure to fetch the log is replaced by a fixed placeholder (lines 236-240);
`if default_dataset_id:` is Python truthiness, so an empty-string id counts
as absent. -/
def test_actor_run (env : ProbeEnv) : TestResult :=
  match env.callRun with
  | .error e => ⟨false, 0, "Test run error: " ++ e, e⟩
  | .ok run =>
    let log_text : String :=
      match env.runLog with
      | .ok l => l
      | .error _ => "Could not fetch run log"
    if run.status ≠ some "SUCCEEDED" then
      ⟨false, 0, "Run failed with status: " ++ pyShowOpt run.status, log_text⟩
    else
      match run.defaultDatasetId with
      | some dsid =>
        if dsid ≠ "" then
          match env.itemCount with
          | .error e => ⟨false, 0, "Test run error: " ++ e, e⟩
          | .ok item_count =>
            if item_count > 0 then
              ⟨true, item_count, "Produced " ++ toString item_count ++ " items", log_text⟩
            else
              ⟨false, 0, "Run succeeded but produced no data", log_text⟩
        else
          ⟨false, 0, "No dataset found", log_text⟩
      | none => ⟨false, 0, "No dataset found", log_text⟩

/-- Outcome of `json.loads` on the repair service's response text, as the
repair functions consume it.  `parsed kvs` is a JSON object (Python dict,
keys unique, last duplicate wins — as `json.loads` produces); `parsedNonDict`
is any other JSON value (its `.items()` raises `AttributeError`, caught by
the surrounding `except`); `parseError` is invalid JSON (`json.loads`
raises); `serviceError` is an exception from the Anthropic call itself. -/
inductive RepairResponse
  | parsed (kvs : List (String × String))
  | parsedNonDict
  | parseError (msg : String)
  | serviceError (msg : String)
deriving DecidableEq, Repr

/-- The merge step shared by both repair functions (validator.py lines
372-380 and 455-463): regenerate a fresh FileSet and overlay the patch,
`all_files[file_path] = fixed_content` per patch entry. -/
def applyPatch (fresh : FileSet) (kvs : List (String × String)) : FileSet :=
  kvs.foldl (fun all_files kv => dictInsert all_files kv.1 kv.2) fresh

/-- Model of `_fix_build_errors` (validator.py lines 387-468).  `fresh` is the result
of `generator.generate(requirements)` (deterministic templating, spec §2).
Any exception inside the `try` — service failure, invalid JSON, a non-dict
JSON value whose `.items()` raises — is caught and the function falls back
to the freshly generated files; a dict response is overlaid over the fresh
files with no key validation. -/
def fix_build_errors (fresh : FileSet) (resp : RepairResponse) : FileSet :=
  match resp with
  | .parsed kvs => applyPatch fresh kvs
  | .parsedNonDict => fresh
  | .parseError _ => fresh
  | .serviceError _ => fresh

/-- Model of `_fix_runtime_errors` (validator.py lines 288-385): identical merge and
fallback logic to `_fix_build_errors` (only the prompt text and the markdown
stripping of the response text differ, both absorbed by the
`RepairResponse` oracle). -/
def fix_runtime_errors (fresh : FileSet) (resp : RepairResponse) : FileSet :=
  match resp with
  | .parsed kvs => applyPatch fresh kvs
  | .parsedNonDict => fresh
  | .parseError _ => fresh
  | .serviceError _ => fresh

/-- Outcome of `deployer.wait_for_build` at one loop pass: a returned status
record (`build_status.get('status')`, possibly absent), a raised
`TimeoutError`, or any other raised exception. -/
inductive WaitOutcome
  | status (s : Option String)
  | timeoutError (msg : String)
  | exn (msg : String)
deriving DecidableEq, Repr

/-- Oracle for one pass of the validation loop: outcomes of the external
calls the pass may make.  `redeploy` covers `update_actor_version` plus
`_trigger_build` (ok = the new build id, error = a raised exception);
`buildLog` is `get_build_log`.  The repaired FileSet computed by
`fix_build_errors`/`fix_runtime_errors` is handed to `update_actor_version`,
whose outcome is the `redeploy` oracle. -/
structure PassEnv where
  wait : WaitOutcome
  probe : ProbeEnv
  repair : RepairResponse
  redeploy : Except String String
  buildLog : Except String String
deriving DecidableEq, Repr

/-- The terminal record `validate_and_fix` returns (validator.py):
`error` is present only on some of the `failed` returns. -/
structure ValidationResult where
  status : String
  actor_id : String
  build_id : String
  console_url : String
  iterations : Int
  message : String
  error : Option String
deriving DecidableEq, Repr

/-- Instrumented output of the loop: the returned record, whether it came
from the post-loop fallback return (validator.py lines 186-194), and how
many loop-body passes executed. -/
structure LoopOut where
  result : ValidationResult
  viaFallback : Bool
  passes : Nat
deriving DecidableEq, Repr

/-- The url `f"https://console.apify.com/actors/\x7bactor_id\x7d"`. -/
def console_url (actor_id : String) : String :=
  "https://console.apify.com/actors/" ++ actor_id

/-- Count one more executed loop-body pass on the eventual output. -/
def addPass (o : Option LoopOut) : Option LoopOut :=
  o.map (fun out => { out with passes := out.passes + 1 })

/-- The `while iteration < max_iterations` loop of
`ActorValidator.validate_and_fix` (validator.py lines 54-194), one
constructor-step per `PassEnv` consumed.  `none` means the supplied oracle
trace ran out while the Python loop would have kept running; every Python
return statement is a `some`.  Branches, in source order: `TimeoutError`
handler (162-172), generic `except` handler (174-184) — reached from any
raising step of the pass —, `SUCCEEDED` (62-114) with probe, last-iteration
caveat return (83-91) and runtime repair, `FAILED`/`ABORTED`/`TIMED-OUT`
(116-155) with log fetch, last-iteration failure return (124-133) and build
repair, unknown status re-poll (157-160), and the post-loop fallback
(186-194). -/
def validateLoop (actor_id : String) (max_iterations : Int) :
    Int → String → List PassEnv → Option LoopOut
  | iteration, current_build_id, envs =>
    if iteration < max_iterations then
      match envs with
      | [] => none
      | env :: rest =>
        match env.wait with
        | .timeoutError m =>
          some ⟨⟨"failed", actor_id, current_build_id, console_url actor_id,
                 iteration + 1, "Build timed out", some m⟩, false, 1⟩
        | .exn m =>
          some ⟨⟨"failed", actor_id, current_build_id, console_url actor_id,
                 iteration + 1, "Validation error", some m⟩, false, 1⟩
        | .status st =>
          if st = some "SUCCEEDED" then
            let test_result := test_actor_run env.probe
            if test_result.success then
              some ⟨⟨"success", actor_id, current_build_id, console_url actor_id,
                     iteration + 1,
                     "Actor built and tested successfully (" ++
                       toString test_result.item_count ++ " items)", none⟩, false, 1⟩
            else if iteration ≥ max_iterations - 1 then
              some ⟨⟨"success", actor_id, current_build_id, console_url actor_id,
                     iteration + 1,
                     "Build succeeded but test run produced no data: " ++
                       test_result.message, none⟩, false, 1⟩
            else
              match env.redeploy with
              | .error m =>
                some ⟨⟨"failed", actor_id, current_build_id, console_url actor_id,
                       iteration + 1, "Validation error", some m⟩, false, 1⟩
              | .ok new_build_id =>
                addPass (validateLoop actor_id max_iterations
                  (iteration + 1) new_build_id rest)
          else if st = some "FAILED" ∨ st = some "ABORTED" ∨ st = some "TIMED-OUT" then
            match env.buildLog with
            | .error m =>
              some ⟨⟨"failed", actor_id, current_build_id, console_url actor_id,
                     iteration + 1, "Validation error", some m⟩, false, 1⟩
            | .ok build_log =>
              if iteration ≥ max_iterations - 1 then
                some ⟨⟨"failed", actor_id, current_build_id, console_url actor_id,
                       iteration + 1,
                       "Build failed after " ++ toString max_iterations ++ " attempts",
                       some (if build_log ≠ "" then pyTail build_log 1000
                             else "No logs available")⟩, false, 1⟩
              else
                match env.redeploy with
                | .error m =>
                  some ⟨⟨"failed", actor_id, current_build_id, console_url actor_id,
                         iteration + 1, "Validation error", some m⟩, false, 1⟩
                | .ok new_build_id =>
                  addPass (validateLoop actor_id max_iterations
                    (iteration + 1) new_build_id rest)
          else
            addPass (validateLoop actor_id max_iterations
              iteration current_build_id rest)
    else
      some ⟨⟨"failed", actor_id, current_build_id, console_url actor_id,
             max_iterations,
             "Could not fix errors in " ++ toString max_iterations ++ " attempts",
             none⟩, true, 0⟩

/-- The deployment record fields `validate_and_fix` reads. -/
structure Deployment where
  actor_id : String
  build_id : String
deriving DecidableEq, Repr

/-- Model of `ActorValidator.validate_and_fix` (validator.py lines 30-194):
`iteration = 0`, `current_build_id = deployment['build_id']`, then the loop. -/
def validate_and_fix (deployment : Deployment) (max_iterations : Int)
    (envs : List PassEnv) : Option LoopOut :=
  validateLoop deployment.actor_id max_iterations 0 deployment.build_id envs

/-- A build-status value the loop treats as terminal at this pass: a raised
exception, or one of the four recognized status strings.  Any other status
takes the re-poll branch (validator.py lines 157-160). -/
def isRecognized : WaitOutcome → Bool
  | .status st =>
    st = some "SUCCEEDED" || st = some "FAILED" || st = some "ABORTED" ||
      st = some "TIMED-OUT"
  | .timeoutError _ => true
  | .exn _ => true

/-- Concrete sample values used by witness and counterexample theorems. -/
def sampleDeployment : Deployment := ⟨"actor1", "build1"⟩

/-- A probe environment whose run succeeds with a dataset of 5 items. -/
def okProbe : ProbeEnv :=
  ⟨.ok ⟨"run1", some "SUCCEEDED", some "dataset1"⟩, .ok "run log text", .ok 5⟩

/-- A probe environment whose run succeeds but whose dataset is empty. -/
def zeroProbe : ProbeEnv :=
  ⟨.ok ⟨"run1", some "SUCCEEDED", some "dataset1"⟩, .ok "run log text", .ok 0⟩

/-- A pass whose build succeeds and whose probe finds data. -/
def succEnv : PassEnv :=
  ⟨.status (some "SUCCEEDED"), okProbe, .parsedNonDict, .ok "build2", .ok "build log"⟩

/-- A pass whose build succeeds but whose probe finds no data. -/
def zeroEnv : PassEnv :=
  ⟨.status (some "SUCCEEDED"), zeroProbe, .parsedNonDict, .ok "build2", .ok "build log"⟩

/-- A pass whose build fails terminally. -/
def failedEnv : PassEnv :=
  ⟨.status (some "FAILED"), okProbe, .parsedNonDict, .ok "build2", .ok "build log"⟩

/-- A pass whose build times out on the platform side. -/
def timedOutEnv : PassEnv :=
  ⟨.status (some "TIMED-OUT"), okProbe, .parsedNonDict, .ok "build2", .ok "build log"⟩

/-- A pass observing a transient, unrecognized build status. -/
def runningEnv : PassEnv :=
  ⟨.status (some "RUNNING"), okProbe, .parsedNonDict, .ok "build2", .ok "build log"⟩

/-- A pass at which the build-status polling raises its internal timeout. -/
def timeoutEnv : PassEnv :=
  ⟨.timeoutError "poll timeout", okProbe, .parsedNonDict, .ok "build2", .ok "build log"⟩

/-- A freshly generated FileSet with the paths `ActorGenerator.generate`
produces (actor_generator.py lines 40-71). -/
def sampleFresh : FileSet :=
  [("src/main.py", "print main"),
   (".actor/actor.json", "actor config"),
   (".actor/input_schema.json", "schema"),
   ("requirements.txt", "apify>=1.7.0"),
   ("Dockerfile", "FROM apify"),
   ("src/__init__.py", "init"),
   ("src/__main__.py", "entry"),
   ("README.md", "readme")]

/-- A Requirements record with one defaulted and one default-free field. -/
def sampleRequirements : Requirements :=
  ⟨[⟨some "a", some "x"⟩, ⟨some "b", none⟩]⟩

/-- The loop output of the two-pass trace `[failedEnv, succEnv]` at cap 2. -/
def c1Out : LoopOut :=
  ⟨⟨"success", "actor1", "build2", console_url "actor1", 2,
    "Actor built and tested successfully (5 items)", none⟩, false, 2⟩



theorem validateLoop_fallback {a : String} {mi it : Int} {bid : String}
    {envs : List PassEnv} (h : ¬ it < mi) :
    validateLoop a mi it bid envs =
      some ⟨⟨"failed", a, bid, console_url a, mi,
             "Could not fix errors in " ++ toString mi ++ " attempts", none⟩,
            true, 0⟩ := by
  unfold validateLoop
  rw [if_neg h]

theorem validateLoop_nil {a : String} {mi it : Int} {bid : String} (h : it < mi) :
    validateLoop a mi it bid [] = none := by
  unfold validateLoop
  rw [if_pos h]

theorem validateLoop_timeout {a : String} {mi it : Int} {bid m : String}
    {p : ProbeEnv} {rp : RepairResponse} {rd bl : Except String String}
    {rest : List PassEnv} (h : it < mi) :
    validateLoop a mi it bid (⟨.timeoutError m, p, rp, rd, bl⟩ :: rest) =
      some ⟨⟨"failed", a, bid, console_url a, it + 1, "Build timed out", some m⟩,
            false, 1⟩ := by
  unfold validateLoop
  rw [if_pos h]

theorem validateLoop_exn {a : String} {mi it : Int} {bid m : String}
    {p : ProbeEnv} {rp : RepairResponse} {rd bl : Except String String}
    {rest : List PassEnv} (h : it < mi) :
    validateLoop a mi it bid (⟨.exn m, p, rp, rd, bl⟩ :: rest) =
      some ⟨⟨"failed", a, bid, console_url a, it + 1, "Validation error", some m⟩,
            false, 1⟩ := by
  unfold validateLoop
  rw [if_pos h]

theorem validateLoop_succ_pass {a : String} {mi it : Int} {bid : String}
    {p : ProbeEnv} {rp : RepairResponse} {rd bl : Except String String}
    {rest : List PassEnv} (h : it < mi)
    (hs : (test_actor_run p).success = true) :
    validateLoop a mi it bid (⟨.status (some "SUCCEEDED"), p, rp, rd, bl⟩ :: rest) =
      some ⟨⟨"success", a, bid, console_url a, it + 1,
             "Actor built and tested successfully (" ++
               toString (test_actor_run p).item_count ++ " items)", none⟩,
            false, 1⟩ := by
  unfold validateLoop
  rw [if_pos h]
  simp [hs]

theorem validateLoop_succ_caveat {a : String} {mi it : Int} {bid : String}
    {p : ProbeEnv} {rp : RepairResponse} {rd bl : Except String String}
    {rest : List PassEnv} (h : it < mi)
    (hs : (test_actor_run p).success = false) (hlast : it ≥ mi - 1) :
    validateLoop a mi it bid (⟨.status (some "SUCCEEDED"), p, rp, rd, bl⟩ :: rest) =
      some ⟨⟨"success", a, bid, console_url a, it + 1,
             "Build succeeded but test run produced no data: " ++
               (test_actor_run p).message, none⟩,
            false, 1⟩ := by
  unfold validateLoop
  rw [if_pos h]
  simp [hs, hlast]

theorem validateLoop_succ_repair_error {a : String} {mi it : Int} {bid m : String}
    {p : ProbeEnv} {rp : RepairResponse} {bl : Except String String}
    {rest : List PassEnv} (h : it < mi)
    (hs : (test_actor_run p).success = false) (hmore : ¬ it ≥ mi - 1) :
    validateLoop a mi it bid (⟨.status (some "SUCCEEDED"), p, rp, .error m, bl⟩ :: rest) =
      some ⟨⟨"failed", a, bid, console_url a, it + 1, "Validation error", some m⟩,
            false, 1⟩ := by
  unfold validateLoop
  rw [if_pos h]
  simp [hs, hmore]

theorem validateLoop_succ_repair_ok {a : String} {mi it : Int} {bid nid : String}
    {p : ProbeEnv} {rp : RepairResponse} {bl : Except String String}
    {rest : List PassEnv} (h : it < mi)
    (hs : (test_actor_run p).success = false) (hmore : ¬ it ≥ mi - 1) :
    validateLoop a mi it bid (⟨.status (some "SUCCEEDED"), p, rp, .ok nid, bl⟩ :: rest) =
      addPass (validateLoop a mi (it + 1) nid rest) := by
  conv_lhs => unfold validateLoop
  rw [if_pos h]
  simp [hs, hmore]

theorem validateLoop_fail_logerr {a : String} {mi it : Int} {bid m : String}
    {st : Option String} {p : ProbeEnv} {rp : RepairResponse}
    {rd : Except String String} {rest : List PassEnv} (h : it < mi)
    (hf : st = some "FAILED" ∨ st = some "ABORTED" ∨ st = some "TIMED-OUT") :
    validateLoop a mi it bid (⟨.status st, p, rp, rd, .error m⟩ :: rest) =
      some ⟨⟨"failed", a, bid, console_url a, it + 1, "Validation error", some m⟩,
            false, 1⟩ := by
  have hns : ¬ st = some "SUCCEEDED" := by
    rcases hf with h' | h' | h' <;> simp [h']
  unfold validateLoop
  rw [if_pos h]
  simp [hns, hf]

theorem validateLoop_fail_last {a : String} {mi it : Int} {bid l : String}
    {st : Option String} {p : ProbeEnv} {rp : RepairResponse}
    {rd : Except String String} {rest : List PassEnv} (h : it < mi)
    (hf : st = some "FAILED" ∨ st = some "ABORTED" ∨ st = some "TIMED-OUT")
    (hlast : it ≥ mi - 1) :
    validateLoop a mi it bid (⟨.status st, p, rp, rd, .ok l⟩ :: rest) =
      some ⟨⟨"failed", a, bid, console_url a, it + 1,
             "Build failed after " ++ toString mi ++ " attempts",
             some (if l ≠ "" then pyTail l 1000 else "No logs available")⟩,
            false, 1⟩ := by
  have hns : ¬ st = some "SUCCEEDED" := by
    rcases hf with h' | h' | h' <;> simp [h']
  unfold validateLoop
  rw [if_pos h]
  simp [hns, hf, hlast]

theorem validateLoop_fail_repair_error {a : String} {mi it : Int} {bid l m : String}
    {st : Option String} {p : ProbeEnv} {rp : RepairResponse}
    {rest : List PassEnv} (h : it < mi)
    (hf : st = some "FAILED" ∨ st = some "ABORTED" ∨ st = some "TIMED-OUT")
    (hmore : ¬ it ≥ mi - 1) :
    validateLoop a mi it bid (⟨.status st, p, rp, .error m, .ok l⟩ :: rest) =
      some ⟨⟨"failed", a, bid, console_url a, it + 1, "Validation error", some m⟩,
            false, 1⟩ := by
  have hns : ¬ st = some "SUCCEEDED" := by
    rcases hf with h' | h' | h' <;> simp [h']
  unfold validateLoop
  rw [if_pos h]
  simp [hns, hf, hmore]

theorem validateLoop_fail_repair_ok {a : String} {mi it : Int} {bid l nid : String}
    {st : Option String} {p : ProbeEnv} {rp : RepairResponse}
    {rest : List PassEnv} (h : it < mi)
    (hf : st = some "FAILED" ∨ st = some "ABORTED" ∨ st = some "TIMED-OUT")
    (hmore : ¬ it ≥ mi - 1) :
    validateLoop a mi it bid (⟨.status st, p, rp, .ok nid, .ok l⟩ :: rest) =
      addPass (validateLoop a mi (it + 1) nid rest) := by
  have hns : ¬ st = some "SUCCEEDED" := by
    rcases hf with h' | h' | h' <;> simp [h']
  conv_lhs => unfold validateLoop
  rw [if_pos h]
  simp [hns, hf, hmore]

theorem validateLoop_unknown {a : String} {mi it : Int} {bid : String}
    {st : Option String} {p : ProbeEnv} {rp : RepairResponse}
    {rd bl : Except String String} {rest : List PassEnv} (h : it < mi)
    (hns : ¬ st = some "SUCCEEDED")
    (hnf : ¬ (st = some "FAILED" ∨ st = some "ABORTED" ∨ st = some "TIMED-OUT")) :
    validateLoop a mi it bid (⟨.status st, p, rp, rd, bl⟩ :: rest) =
      addPass (validateLoop a mi it bid rest) := by
  conv_lhs => unfold validateLoop
  rw [if_pos h]
  simp [hns, hnf]



theorem addPass_eq_some {o : Option LoopOut} {out : LoopOut} :
    addPass o = some out ↔
      ∃ out0, o = some out0 ∧ out = ⟨out0.result, out0.viaFallback, out0.passes + 1⟩ := by
  cases o with
  | none => simp [addPass]
  | some x =>
    constructor
    · intro h
      refine ⟨x, rfl, ?_⟩
      have h2 : some (⟨x.result, x.viaFallback, x.passes + 1⟩ : LoopOut) = some out := h
      injection h2 with h3
      exact h3.symm
    · rintro ⟨out0, h1, rfl⟩
      cases h1
      rfl

/-- Helper invariant: every record the loop returns carries an iteration
count between 1 and the cap (the post-loop fallback included, given a
positive cap). -/
theorem loop_iterations_bounds {a : String} {mi : Int} :
    ∀ (envs : List PassEnv) (it : Int) (bid : String) (out : LoopOut),
      0 ≤ it → 1 ≤ mi →
      validateLoop a mi it bid envs = some out →
      1 ≤ out.result.iterations ∧ out.result.iterations ≤ mi := by
  intro envs
  induction envs with
  | nil =>
    intro it bid out h0 h1 hres
    by_cases hlt : it < mi
    · rw [validateLoop_nil hlt] at hres
      cases hres
    · rw [validateLoop_fallback hlt] at hres
      injection hres with h
      subst h
      exact ⟨h1, le_refl mi⟩
  | cons env rest ih =>
    intro it bid out h0 h1 hres
    by_cases hlt : it < mi
    · obtain ⟨w, p, rp, rd, bl⟩ := env
      cases w with
      | timeoutError m =>
        rw [validateLoop_timeout hlt] at hres
        injection hres with h
        subst h
        constructor <;> simp <;> omega
      | exn m =>
        rw [validateLoop_exn hlt] at hres
        injection hres with h
        subst h
        constructor <;> simp <;> omega
      | status st =>
        by_cases hsucc : st = some "SUCCEEDED"
        · subst hsucc
          cases hs : (test_actor_run p).success with
          | true =>
            rw [validateLoop_succ_pass hlt hs] at hres
            injection hres with h
            subst h
            constructor <;> simp <;> omega
          | false =>
            by_cases hlast : it ≥ mi - 1
            · rw [validateLoop_succ_caveat hlt hs hlast] at hres
              injection hres with h
              subst h
              constructor <;> simp <;> omega
            · cases rd with
              | error m =>
                rw [validateLoop_succ_repair_error hlt hs hlast] at hres
                injection hres with h
                subst h
                constructor <;> simp <;> omega
              | ok nid =>
                rw [validateLoop_succ_repair_ok hlt hs hlast] at hres
                obtain ⟨out0, hx, rfl⟩ := addPass_eq_some.mp hres
                exact ih (it + 1) nid out0 (by omega) h1 hx
        · by_cases hfail : st = some "FAILED" ∨ st = some "ABORTED" ∨ st = some "TIMED-OUT"
          · cases bl with
            | error m =>
              rw [validateLoop_fail_logerr hlt hfail] at hres
              injection hres with h
              subst h
              constructor <;> simp <;> omega
            | ok l =>
              by_cases hlast : it ≥ mi - 1
              · rw [validateLoop_fail_last hlt hfail hlast] at hres
                injection hres with h
                subst h
                constructor <;> simp <;> omega
              · cases rd with
                | error m =>
                  rw [validateLoop_fail_repair_error hlt hfail hlast] at hres
                  injection hres with h
                  subst h
                  constructor <;> simp <;> omega
                | ok nid =>
                  rw [validateLoop_fail_repair_ok hlt hfail hlast] at hres
                  obtain ⟨out0, hx, rfl⟩ := addPass_eq_some.mp hres
                  exact ih (it + 1) nid out0 (by omega) h1 hx
          · rw [validateLoop_unknown hlt hsucc hfail] at hres
            obtain ⟨out0, hx, rfl⟩ := addPass_eq_some.mp hres
            exact ih it bid out0 h0 h1 hx
    · rw [validateLoop_fallback hlt] at hres
      injection hres with h
      subst h
      exact ⟨h1, le_refl mi⟩



/-- Helper invariant: on a trace whose polls all yield recognized outcomes,
the loop consumes at most `mi - it` loop-body passes. -/
theorem loop_passes_bound {a : String} {mi : Int} :
    ∀ (envs : List PassEnv) (it : Int) (bid : String) (out : LoopOut),
      it ≤ mi →
      (∀ e ∈ envs, isRecognized e.wait = true) →
      validateLoop a mi it bid envs = some out →
      (out.passes : Int) ≤ mi - it := by
  intro envs
  induction envs with
  | nil =>
    intro it bid out hle hrec hres
    by_cases hlt : it < mi
    · rw [validateLoop_nil hlt] at hres
      cases hres
    · rw [validateLoop_fallback hlt] at hres
      injection hres with h
      subst h
      simp
      omega
  | cons env rest ih =>
    intro it bid out hle hrec hres
    have hrecRest : ∀ e ∈ rest, isRecognized e.wait = true :=
      fun e he => hrec e (List.mem_cons_of_mem _ he)
    have hrecHead : isRecognized env.wait = true := hrec env (List.mem_cons_self _ _)
    by_cases hlt : it < mi
    · obtain ⟨w, p, rp, rd, bl⟩ := env
      cases w with
      | timeoutError m =>
        rw [validateLoop_timeout hlt] at hres
        injection hres with h
        subst h
        simp
        omega
      | exn m =>
        rw [validateLoop_exn hlt] at hres
        injection hres with h
        subst h
        simp
        omega
      | status st =>
        by_cases hsucc : st = some "SUCCEEDED"
        · subst hsucc
          cases hs : (test_actor_run p).success with
          | true =>
            rw [validateLoop_succ_pass hlt hs] at hres
            injection hres with h
            subst h
            simp
            omega
          | false =>
            by_cases hlast : it ≥ mi - 1
            · rw [validateLoop_succ_caveat hlt hs hlast] at hres
              injection hres with h
              subst h
              simp
              omega
            · cases rd with
              | error m =>
                rw [validateLoop_succ_repair_error hlt hs hlast] at hres
                injection hres with h
                subst h
                simp
                omega
              | ok nid =>
                rw [validateLoop_succ_repair_ok hlt hs hlast] at hres
                obtain ⟨out0, hx, rfl⟩ := addPass_eq_some.mp hres
                have := ih (it + 1) nid out0 (by omega) hrecRest hx
                simp at this ⊢
                omega
        · by_cases hfail : st = some "FAILED" ∨ st = some "ABORTED" ∨ st = some "TIMED-OUT"
          · cases bl with
            | error m =>
              rw [validateLoop_fail_logerr hlt hfail] at hres
              injection hres with h
              subst h
              simp
              omega
            | ok l =>
              by_cases hlast : it ≥ mi - 1
              · rw [validateLoop_fail_last hlt hfail hlast] at hres
                injection hres with h
                subst h
                simp
                omega
              · cases rd with
                | error m =>
                  rw [validateLoop_fail_repair_error hlt hfail hlast] at hres
                  injection hres with h
                  subst h
                  simp
                  omega
                | ok nid =>
                  rw [validateLoop_fail_repair_ok hlt hfail hlast] at hres
                  obtain ⟨out0, hx, rfl⟩ := addPass_eq_some.mp hres
                  have := ih (it + 1) nid out0 (by omega) hrecRest hx
                  simp at this ⊢
                  omega
          · exfalso
            push_neg at hfail
            obtain ⟨hf1, hf2, hf3⟩ := hfail
            simp [isRecognized, hsucc, hf1, hf2, hf3] at hrecHead
    · rw [validateLoop_fallback hlt] at hres
      injection hres with h
      subst h
      simp
      omega

/-- Helper invariant: once the loop is entered with budget remaining, every
returned record is produced by a return inside the loop body — the post-loop
fallback is unreachable. -/
theorem loop_no_fallback {a : String} {mi : Int} :
    ∀ (envs : List PassEnv) (it : Int) (bid : String) (out : LoopOut),
      it < mi →
      validateLoop a mi it bid envs = some out →
      out.viaFallback = false := by
  intro envs
  induction envs with
  | nil =>
    intro it bid out hlt hres
    rw [validateLoop_nil hlt] at hres
    cases hres
  | cons env rest ih =>
    intro it bid out hlt hres
    obtain ⟨w, p, rp, rd, bl⟩ := env
    cases w with
    | timeoutError m =>
      rw [validateLoop_timeout hlt] at hres
      injection hres with h
      subst h
      rfl
    | exn m =>
      rw [validateLoop_exn hlt] at hres
      injection hres with h
      subst h
      rfl
    | status st =>
      by_cases hsucc : st = some "SUCCEEDED"
      · subst hsucc
        cases hs : (test_actor_run p).success with
        | true =>
          rw [validateLoop_succ_pass hlt hs] at hres
          injection hres with h
          subst h
          rfl
        | false =>
          by_cases hlast : it ≥ mi - 1
          · rw [validateLoop_succ_caveat hlt hs hlast] at hres
            injection hres with h
            subst h
            rfl
          · cases rd with
            | error m =>
              rw [validateLoop_succ_repair_error hlt hs hlast] at hres
              injection hres with h
              subst h
              rfl
            | ok nid =>
              rw [validateLoop_succ_repair_ok hlt hs hlast] at hres
              obtain ⟨out0, hx, rfl⟩ := addPass_eq_some.mp hres
              exact ih (it + 1) nid out0 (by omega) hx
      · by_cases hfail : st = some "FAILED" ∨ st = some "ABORTED" ∨ st = some "TIMED-OUT"
        · cases bl with
          | error m =>
            rw [validateLoop_fail_logerr hlt hfail] at hres
            injection hres with h
            subst h
            rfl
          | ok l =>
            by_cases hlast : it ≥ mi - 1
            · rw [validateLoop_fail_last hlt hfail hlast] at hres
              injection hres with h
              subst h
              rfl
            · cases rd with
              | error m =>
                rw [validateLoop_fail_repair_error hlt hfail hlast] at hres
                injection hres with h
                subst h
                rfl
              | ok nid =>
                rw [validateLoop_fail_repair_ok hlt hfail hlast] at hres
                obtain ⟨out0, hx, rfl⟩ := addPass_eq_some.mp hres
                exact ih (it + 1) nid out0 (by omega) hx
        · rw [validateLoop_unknown hlt hsucc hfail] at hres
          obtain ⟨out0, hx, rfl⟩ := addPass_eq_some.mp hres
          exact ih it bid out0 hlt hx



/-- Helper: a probe whose run call returned a record with status
`SUCCEEDED` and a (truthy) dataset id, and whose dataset reported zero
items, yields the zero-data test result. -/
theorem test_actor_run_zero {p : ProbeEnv} {run : RunInfo} {d : String}
    (hc : p.callRun = .ok run) (hst : run.status = some "SUCCEEDED")
    (hd : run.defaultDatasetId = some d) (hne : d ≠ "")
    (hi : p.itemCount = .ok 0) :
    (test_actor_run p).success = false ∧
      (test_actor_run p).message = "Run succeeded but produced no data" := by
  unfold test_actor_run
  rw [hc]
  simp [hst, hd, hne, hi]

/-- Helper: a probe whose run call returned status `SUCCEEDED`, a truthy
dataset id and a positive item count yields a successful test result. -/
theorem test_actor_run_pos {p : ProbeEnv} {run : RunInfo} {d : String} {n : Nat}
    (hc : p.callRun = .ok run) (hst : run.status = some "SUCCEEDED")
    (hd : run.defaultDatasetId = some d) (hne : d ≠ "")
    (hi : p.itemCount = .ok n) (hn : 0 < n) :
    (test_actor_run p).success = true ∧
      (test_actor_run p).item_count = n := by
  unfold test_actor_run
  rw [hc]
  simp [hst, hd, hne, hi, hn]

theorem pyTail_length (s : String) (n : Nat) :
    (pyTail s n).length = min s.length n := by
  simp only [pyTail, String.length, List.length_drop]
  omega

theorem pyTail_ne_empty {s : String} {n : Nat} (hs : s ≠ "") (hn : 0 < n) :
    pyTail s n ≠ "" := by
  intro h
  apply hs
  have hlen : (pyTail s n).length = 0 := by rw [h]; rfl
  rw [pyTail_length] at hlen
  have : s.length = 0 := by omega
  cases s with
  | mk data =>
    cases data with
    | nil => rfl
    | cons c cs => simp [String.length] at this

/-- Helper: the error payload of the budget-exhausted build failure
(validator.py line 132) is non-empty and at most 1000 characters. -/
theorem excerpt_bounds (l : String) :
    (if l ≠ "" then pyTail l 1000 else "No logs available") ≠ "" ∧
      (if l ≠ "" then pyTail l 1000 else "No logs available").length ≤ 1000 := by
  by_cases hl : l = ""
  · simp [hl]
    decide
  · simp [hl]
    constructor
    · exact pyTail_ne_empty hl (by norm_num)
    · rw [pyTail_length]
      omega



/-- Helper: on a trace where every build succeeds, every probe reports zero
items, and every redeploy succeeds, the loop runs the runtime-repair branch
until the cap and then returns the success-with-caveat record. -/
theorem loop_all_succeeded_zero {a : String} {mi : Int} :
    ∀ (envs : List PassEnv) (it : Int) (bid : String),
      it < mi → mi - it ≤ (envs.length : Int) →
      (∀ e ∈ envs, e.wait = .status (some "SUCCEEDED") ∧
        (∃ run d, e.probe.callRun = .ok run ∧ run.status = some "SUCCEEDED" ∧
          run.defaultDatasetId = some d ∧ d ≠ "") ∧
        e.probe.itemCount = .ok 0 ∧ (∃ nid, e.redeploy = .ok nid)) →
      ∃ out, validateLoop a mi it bid envs = some out ∧
        out.result.status = "success" ∧
        out.result.message =
          "Build succeeded but test run produced no data: Run succeeded but produced no data" ∧
        out.result.iterations = mi := by
  intro envs
  induction envs with
  | nil =>
    intro it bid hlt hlen hall
    exfalso
    simp at hlen
    omega
  | cons env rest ih =>
    intro it bid hlt hlen hall
    have hallRest : ∀ e ∈ rest, e.wait = .status (some "SUCCEEDED") ∧
        (∃ run d, e.probe.callRun = .ok run ∧ run.status = some "SUCCEEDED" ∧
          run.defaultDatasetId = some d ∧ d ≠ "") ∧
        e.probe.itemCount = .ok 0 ∧ (∃ nid, e.redeploy = .ok nid) :=
      fun e he => hall e (List.mem_cons_of_mem _ he)
    obtain ⟨w, p, rp, rd, bl⟩ := env
    obtain ⟨hw, ⟨run, d, hc, hst, hd, hne⟩, hi0, nid, hrd⟩ :=
      hall _ (List.mem_cons_self _ _)
    simp only at hw hc hst hd hi0 hrd
    subst hw
    subst hrd
    have hzero := test_actor_run_zero hc hst hd hne hi0
    by_cases hlast : it ≥ mi - 1
    · refine ⟨_, validateLoop_succ_caveat hlt hzero.1 hlast, rfl, ?_, ?_⟩
      · simp only
        rw [hzero.2]
        decide
      · simp only
        omega
    · obtain ⟨out0, hx, hstat, hmsg, hiter⟩ :=
        ih (it + 1) nid (by omega)
          (by simp at hlen ⊢; omega) hallRest
      refine ⟨⟨out0.result, out0.viaFallback, out0.passes + 1⟩, ?_, hstat, hmsg, hiter⟩
      rw [validateLoop_succ_repair_ok hlt hzero.1 hlast, hx]
      rfl

/-- Helper: on a trace where every build fails terminally with a fetchable
log and every redeploy succeeds, the loop runs the build-repair branch until
the cap and then returns the failure record with a bounded log excerpt. -/
theorem loop_all_failed {a : String} {mi : Int} :
    ∀ (envs : List PassEnv) (it : Int) (bid : String),
      it < mi → mi - it ≤ (envs.length : Int) →
      (∀ e ∈ envs, e.wait = .status (some "FAILED") ∧
        (∃ l, e.buildLog = .ok l) ∧ (∃ nid, e.redeploy = .ok nid)) →
      ∃ out, validateLoop a mi it bid envs = some out ∧
        out.result.status = "failed" ∧
        out.result.iterations = mi ∧
        ∃ ex, out.result.error = some ex ∧ ex ≠ "" ∧ ex.length ≤ 1000 := by
  intro envs
  induction envs with
  | nil =>
    intro it bid hlt hlen hall
    exfalso
    simp at hlen
    omega
  | cons env rest ih =>
    intro it bid hlt hlen hall
    have hallRest : ∀ e ∈ rest, e.wait = .status (some "FAILED") ∧
        (∃ l, e.buildLog = .ok l) ∧ (∃ nid, e.redeploy = .ok nid) :=
      fun e he => hall e (List.mem_cons_of_mem _ he)
    obtain ⟨w, p, rp, rd, bl⟩ := env
    obtain ⟨hw, ⟨l, hbl⟩, nid, hrd⟩ := hall _ (List.mem_cons_self _ _)
    simp only at hw hbl hrd
    subst hw
    subst hrd
    subst hbl
    by_cases hlast : it ≥ mi - 1
    · refine ⟨_, validateLoop_fail_last hlt (Or.inl rfl) hlast, rfl, ?_, ?_⟩
      · simp only
        omega
      · exact ⟨_, rfl, (excerpt_bounds l).1, (excerpt_bounds l).2⟩
    · obtain ⟨out0, hx, hstat, hiter, hex⟩ :=
        ih (it + 1) nid (by omega)
          (by simp at hlen ⊢; omega) hallRest
      refine ⟨⟨out0.result, out0.viaFallback, out0.passes + 1⟩, ?_, hstat, hiter, hex⟩
      rw [validateLoop_fail_repair_ok hlt (Or.inl rfl) hlast, hx]
      rfl



theorem dictGet_nil {α β : Type} [DecidableEq α] (k : α) :
    dictGet ([] : List (α × β)) k = none := rfl

theorem dictGet_cons {α β : Type} [DecidableEq α] (a : α × β) (d : List (α × β)) (k : α) :
    dictGet (a :: d) k = if a.1 = k then some a.2 else dictGet d k := by
  by_cases h : a.1 = k <;> simp [dictGet, List.find?_cons, h]

theorem dictGet_map_overwrite {α β : Type} [DecidableEq α] (k : α) (v : β) :
    ∀ (d : List (α × β)), d.any (fun kv => kv.1 = k) = true →
      dictGet (d.map (fun kv => if kv.1 = k then (k, v) else kv)) k = some v := by
  intro d
  induction d with
  | nil => intro h; cases h
  | cons a d ih =>
    intro h
    by_cases ha : a.1 = k
    · simp [dictGet_cons, ha]
    · have hd : d.any (fun kv => kv.1 = k) = true := by
        simp [List.any_cons, ha] at h
        simpa using h
      simpa [dictGet_cons, ha] using ih hd

theorem dictGet_map_overwrite_ne {α β : Type} [DecidableEq α] (k k' : α) (v : β)
    (hk : k' ≠ k) :
    ∀ (d : List (α × β)),
      dictGet (d.map (fun kv => if kv.1 = k then (k, v) else kv)) k' = dictGet d k' := by
  intro d
  have hkk : ¬ (k = k') := fun h => hk h.symm
  induction d with
  | nil => rfl
  | cons a d ih =>
    by_cases ha : a.1 = k
    · simp [dictGet_cons, ha, hkk, ih]
    · by_cases ha2 : a.1 = k'
      · simp only [List.map_cons, dictGet_cons]
        rw [if_neg ha, if_pos ha2, if_pos ha2]
      · simp only [List.map_cons, dictGet_cons]
        rw [if_neg ha, if_neg ha2, if_neg ha2, ih]

theorem dictGet_append_single_self {α β : Type} [DecidableEq α] (k : α) (v : β) :
    ∀ (d : List (α × β)), d.any (fun kv => kv.1 = k) = false →
      dictGet (d ++ [(k, v)]) k = some v := by
  intro d
  induction d with
  | nil => intro h; simp [dictGet_cons]
  | cons a d ih =>
    intro h
    simp only [List.any_cons, Bool.or_eq_false_iff] at h
    obtain ⟨ha, hd⟩ := h
    have ha' : ¬ (a.1 = k) := by simpa using ha
    simpa [dictGet_cons, ha'] using ih hd

theorem dictGet_append_single_ne {α β : Type} [DecidableEq α] (k k' : α) (v : β)
    (hk : k' ≠ k) :
    ∀ (d : List (α × β)), dictGet (d ++ [(k, v)]) k' = dictGet d k' := by
  intro d
  have hkk : ¬ (k = k') := fun h => hk h.symm
  induction d with
  | nil => simp [dictGet_cons, hkk, dictGet_nil]
  | cons a d ih =>
    by_cases ha : a.1 = k'
    · simp [dictGet_cons, ha]
    · simp only [List.cons_append, dictGet_cons, if_neg ha]
      rw [ih]

/-- Python dict semantics of `dictInsert`: looking up the assigned key
yields the assigned value. -/
theorem dictGet_insert_self {α β : Type} [DecidableEq α]
    (d : List (α × β)) (k : α) (v : β) :
    dictGet (dictInsert d k v) k = some v := by
  unfold dictInsert
  by_cases hmem : d.any (fun kv => kv.1 = k) = true
  · rw [if_pos hmem]
    exact dictGet_map_overwrite k v d hmem
  · rw [if_neg hmem]
    have hf : d.any (fun kv => kv.1 = k) = false := by
      cases h2 : d.any (fun kv => kv.1 = k) with
      | true => exact absurd h2 hmem
      | false => rfl
    exact dictGet_append_single_self k v d hf

/-- Python dict semantics of `dictInsert`: other keys are untouched. -/
theorem dictGet_insert_ne {α β : Type} [DecidableEq α]
    (d : List (α × β)) (k k' : α) (v : β) (hk : k' ≠ k) :
    dictGet (dictInsert d k v) k' = dictGet d k' := by
  unfold dictInsert
  by_cases hmem : d.any (fun kv => kv.1 = k) = true
  · rw [if_pos hmem]
    exact dictGet_map_overwrite_ne k k' v hk d
  · rw [if_neg hmem]
    exact dictGet_append_single_ne k k' v hk d

/-- Paths not named in the patch keep the freshly generated content. -/
theorem applyPatch_not_mem :
    ∀ (kvs : List (String × String)) (fresh : FileSet) (p : String),
      p ∉ kvs.map Prod.fst →
      dictGet (applyPatch fresh kvs) p = dictGet fresh p := by
  intro kvs
  induction kvs with
  | nil => intro fresh p _; rfl
  | cons kv rest ih =>
    intro fresh p hp
    have hp1 : p ≠ kv.1 := by
      intro h
      apply hp
      rw [List.map_cons, h]
      exact List.mem_cons_self _ _
    have hp2 : p ∉ rest.map Prod.fst := by
      intro h
      apply hp
      rw [List.map_cons]
      exact List.mem_cons_of_mem _ h
    have hstep : applyPatch fresh (kv :: rest) = applyPatch (dictInsert fresh kv.1 kv.2) rest := rfl
    rw [hstep, ih _ p hp2, dictGet_insert_ne _ _ _ _ hp1]

/-- Paths named in the patch take the patch's value. -/
theorem applyPatch_mem :
    ∀ (kvs : List (String × String)) (fresh : FileSet) (p v : String),
      (kvs.map Prod.fst).Nodup → (p, v) ∈ kvs →
      dictGet (applyPatch fresh kvs) p = some v := by
  intro kvs
  induction kvs with
  | nil => intro fresh p v _ h; cases h
  | cons kv rest ih =>
    intro fresh p v hnd hmem
    have hstep : applyPatch fresh (kv :: rest) = applyPatch (dictInsert fresh kv.1 kv.2) rest := rfl
    simp only [List.map_cons, List.nodup_cons] at hnd
    obtain ⟨hk, hnd2⟩ := hnd
    rcases List.mem_cons.mp hmem with heq | hmem2
    · cases heq
      rw [hstep, applyPatch_not_mem rest _ p hk, dictGet_insert_self]
    · rw [hstep]
      exact ih _ p v hnd2 hmem2



theorem prep_aux_not_named :
    ∀ (fields : List InputField) (acc : List (Option String × String)) (p : Option String),
      (∀ f ∈ fields, f.name ≠ p) →
      dictGet (fields.foldl
        (fun test_input field =>
          match field.default with
          | some default_value => dictInsert test_input field.name default_value
          | none => test_input) acc) p = dictGet acc p := by
  intro fields
  induction fields with
  | nil => intro acc p _; rfl
  | cons f rest ih =>
    intro acc p hall
    have hname : f.name ≠ p := hall f (List.mem_cons_self _ _)
    have hrest : ∀ g ∈ rest, g.name ≠ p := fun g hg => hall g (List.mem_cons_of_mem _ hg)
    simp only [List.foldl_cons]
    cases hdef : f.default with
    | none =>
      simp only [hdef]
      exact ih _ p hrest
    | some v =>
      simp only [hdef]
      rw [ih _ p hrest, dictGet_insert_ne _ _ _ _ (fun h => hname h.symm)]

theorem prep_aux_none :
    ∀ (fields : List InputField) (acc : List (Option String × String)) (p : Option String),
      (∀ f ∈ fields, f.name = p → f.default = none) →
      dictGet acc p = none →
      dictGet (fields.foldl
        (fun test_input field =>
          match field.default with
          | some default_value => dictInsert test_input field.name default_value
          | none => test_input) acc) p = none := by
  intro fields
  induction fields with
  | nil => intro acc p _ hacc; exact hacc
  | cons f rest ih =>
    intro acc p hall hacc
    have hrest : ∀ g ∈ rest, g.name = p → g.default = none :=
      fun g hg => hall g (List.mem_cons_of_mem _ hg)
    simp only [List.foldl_cons]
    cases hdef : f.default with
    | none =>
      simp only [hdef]
      exact ih _ p hrest hacc
    | some v =>
      have hname : f.name ≠ p := by
        intro h
        have := hall f (List.mem_cons_self _ _) h
        rw [hdef] at this
        cases this
      simp only [hdef]
      refine ih _ p hrest ?_
      rw [dictGet_insert_ne _ _ _ _ (fun h => hname h.symm)]
      exact hacc

theorem prep_aux_some :
    ∀ (fields : List InputField) (acc : List (Option String × String))
      (f : InputField) (v : String),
      (fields.map InputField.name).Nodup → f ∈ fields → f.default = some v →
      dictGet (fields.foldl
        (fun test_input field =>
          match field.default with
          | some default_value => dictInsert test_input field.name default_value
          | none => test_input) acc) f.name = some v := by
  intro fields
  induction fields with
  | nil => intro acc f v _ hmem _; cases hmem
  | cons g rest ih =>
    intro acc f v hnd hmem hdef
    simp only [List.map_cons, List.nodup_cons] at hnd
    obtain ⟨hg, hnd2⟩ := hnd
    simp only [List.foldl_cons]
    rcases List.mem_cons.mp hmem with heq | hmem2
    · subst heq
      rw [hdef]
      have hrest : ∀ g2 ∈ rest, g2.name ≠ f.name := by
        intro g2 hg2 h
        exact hg (h ▸ List.mem_map_of_mem InputField.name hg2)
      rw [prep_aux_not_named rest _ f.name hrest, dictGet_insert_self]
    · exact ih _ f v hnd2 hmem2 hdef

theorem prep_aux_keys :
    ∀ (fields : List InputField) (acc : List (Option String × String)) (p : Option String),
      dictGet (fields.foldl
        (fun test_input field =>
          match field.default with
          | some default_value => dictInsert test_input field.name default_value
          | none => test_input) acc) p ≠ none →
      dictGet acc p ≠ none ∨ ∃ f ∈ fields, f.name = p ∧ f.default ≠ none := by
  intro fields
  induction fields with
  | nil => intro acc p h; exact Or.inl h
  | cons g rest ih =>
    intro acc p h
    simp only [List.foldl_cons] at h
    rcases ih _ p h with h2 | ⟨f, hf, hfn, hfd⟩
    · cases hdef : g.default with
      | none =>
        rw [hdef] at h2
        exact Or.inl h2
      | some v =>
        by_cases hname : g.name = p
        · exact Or.inr ⟨g, List.mem_cons_self _ _, hname, by rw [hdef]; intro hh; cases hh⟩
        · rw [hdef, dictGet_insert_ne _ _ _ _ (fun hh => hname hh.symm)] at h2
          exact Or.inl h2
    · exact Or.inr ⟨f, List.mem_cons_of_mem _ hf, hfn, hfd⟩



/-- C1 counterexample: with `max_iterations = 1`, a pass observing the
unrecognized status `RUNNING` re-polls without consuming budget, so this
call executes 2 loop-body passes — more than `max_iterations`, refuting the
claim's pass bound (the returned iteration count, 1, is still in bounds). -/
theorem C1_counterexample :
    (validate_and_fix sampleDeployment 1 [runningEnv, succEnv]).map
        (fun out => out.passes) = some 2 ∧
      ¬ (2 ≤ (1 : Int)) := by
  constructor
  · decide
  · decide

/-- C1 (amended): for every call with `max_iterations ≥ 1`, the returned
iteration count always satisfies `1 ≤ iterations ≤ max_iterations`; and on
any trace whose polls all yield recognized outcomes (a terminal status or a
raised exception — unrecognized statuses re-poll without consuming budget),
the loop executes at most `max_iterations` loop-body passes before
returning. -/
theorem C1_bounded_iterations {deployment : Deployment} {max_iterations : Int}
    {envs : List PassEnv} {out : LoopOut}
    (hmi : 1 ≤ max_iterations)
    (hres : validate_and_fix deployment max_iterations envs = some out) :
    (1 ≤ out.result.iterations ∧ out.result.iterations ≤ max_iterations) ∧
      ((∀ e ∈ envs, isRecognized e.wait = true) →
        (out.passes : Int) ≤ max_iterations) := by
  constructor
  · exact loop_iterations_bounds envs 0 deployment.build_id out (by omega) hmi hres
  · intro hrec
    have h := loop_passes_bound envs 0 deployment.build_id out (by omega) hrec hres
    omega

/-- C1 witness: a concrete two-pass run under cap 2 satisfying both
conclusions. -/
theorem C1_witness :
    1 ≤ (2 : Int) ∧
      validate_and_fix sampleDeployment 2 [failedEnv, succEnv] = some c1Out ∧
      ((1 ≤ c1Out.result.iterations ∧ c1Out.result.iterations ≤ 2) ∧
        ((∀ e ∈ [failedEnv, succEnv], isRecognized e.wait = true) →
          (c1Out.passes : Int) ≤ 2)) :=
  ⟨by decide, by decide,
   @C1_bounded_iterations sampleDeployment 2 [failedEnv, succEnv] c1Out
     (by decide) (by decide)⟩



/-- C2: on every run where each build reaches `SUCCEEDED` but every probe's
dataset reports zero items (and every redeploy goes through), the loop
exhausts the cap and returns `status = "success"` — not `"failed"` — with a
message mentioning that the test run produced no data. -/
theorem C2_zero_data_success {deployment : Deployment} {max_iterations : Int}
    {envs : List PassEnv}
    (hmi : 1 ≤ max_iterations)
    (hlen : max_iterations ≤ (envs.length : Int))
    (hall : ∀ e ∈ envs, e.wait = .status (some "SUCCEEDED") ∧
      (∃ run d, e.probe.callRun = .ok run ∧ run.status = some "SUCCEEDED" ∧
        run.defaultDatasetId = some d ∧ d ≠ "") ∧
      e.probe.itemCount = .ok 0 ∧ (∃ nid, e.redeploy = .ok nid)) :
    ∃ out, validate_and_fix deployment max_iterations envs = some out ∧
      out.result.status = "success" ∧ out.result.status ≠ "failed" ∧
      out.result.message =
        "Build succeeded but test run produced no data: Run succeeded but produced no data" ∧
      out.result.iterations = max_iterations := by
  obtain ⟨out, hres, hstat, hmsg, hiter⟩ :=
    @loop_all_succeeded_zero deployment.actor_id max_iterations envs 0
      deployment.build_id (by omega) (by omega) hall
  refine ⟨out, hres, hstat, ?_, hmsg, hiter⟩
  rw [hstat]
  decide

/-- C2 witness: cap 2 with two zero-item probe passes. -/
theorem C2_witness :
    1 ≤ (2 : Int) ∧ (2 : Int) ≤ ([zeroEnv, zeroEnv].length : Int) ∧
      ∃ out, validate_and_fix sampleDeployment 2 [zeroEnv, zeroEnv] = some out ∧
        out.result.status = "success" ∧ out.result.status ≠ "failed" ∧
        out.result.message =
          "Build succeeded but test run produced no data: Run succeeded but produced no data" ∧
        out.result.iterations = 2 :=
  ⟨by decide, by decide,
   C2_zero_data_success (by decide) (by decide)
     (by
       intro e he
       simp only [List.mem_cons, List.not_mem_nil, or_false] at he
       rcases he with rfl | rfl <;>
         exact ⟨rfl,
           ⟨⟨"run1", some "SUCCEEDED", some "dataset1"⟩, "dataset1",
             rfl, rfl, rfl, by decide⟩,
           rfl, ⟨"build2", rfl⟩⟩)⟩

/-- C3: if every build attempt up to the cap fails terminally with status
`FAILED` (logs fetchable, redeploys succeeding), the result has
`status = "failed"`, `iterations = max_iterations`, and a non-empty error
excerpt of at most 1000 characters. -/
theorem C3_all_failed_result {deployment : Deployment} {max_iterations : Int}
    {envs : List PassEnv}
    (hmi : 1 ≤ max_iterations)
    (hlen : max_iterations ≤ (envs.length : Int))
    (hall : ∀ e ∈ envs, e.wait = .status (some "FAILED") ∧
      (∃ l, e.buildLog = .ok l) ∧ (∃ nid, e.redeploy = .ok nid)) :
    ∃ out, validate_and_fix deployment max_iterations envs = some out ∧
      out.result.status = "failed" ∧
      out.result.iterations = max_iterations ∧
      ∃ ex, out.result.error = some ex ∧ ex ≠ "" ∧ ex.length ≤ 1000 :=
  @loop_all_failed deployment.actor_id max_iterations envs 0
    deployment.build_id (by omega) (by omega) hall

/-- C3 witness: cap 2 with two failing builds. -/
theorem C3_witness :
    1 ≤ (2 : Int) ∧ (2 : Int) ≤ ([failedEnv, failedEnv].length : Int) ∧
      ∃ out, validate_and_fix sampleDeployment 2 [failedEnv, failedEnv] = some out ∧
        out.result.status = "failed" ∧
        out.result.iterations = 2 ∧
        ∃ ex, out.result.error = some ex ∧ ex ≠ "" ∧ ex.length ≤ 1000 :=
  ⟨by decide, by decide,
   C3_all_failed_result (by decide) (by decide)
     (by
       intro e he
       simp only [List.mem_cons, List.not_mem_nil, or_false] at he
       rcases he with rfl | rfl <;>
         exact ⟨rfl, ⟨"build log", rfl⟩, ⟨"build2", rfl⟩⟩)⟩

/-- C4: a build whose terminal status is timed-out (platform status string
`TIMED-OUT`) is handled exactly as `FAILED` and `ABORTED`: the pass is
interchangeable with a `FAILED` pass; while iterations remain the pass
consumes an iteration and continues with the repair's new build; when no
iterations remain it terminates with `status = "failed"` carrying a bounded
log excerpt.  It is not the re-poll branch. -/
theorem C4_timed_out_is_build_deficiency {a bid : String} {mi it : Int}
    {p : ProbeEnv} {rp : RepairResponse} {rd bl : Except String String}
    {rest : List PassEnv} :
    (validateLoop a mi it bid (⟨.status (some "TIMED-OUT"), p, rp, rd, bl⟩ :: rest) =
       validateLoop a mi it bid (⟨.status (some "FAILED"), p, rp, rd, bl⟩ :: rest)) ∧
    (∀ l nid, it < mi - 1 → bl = .ok l → rd = .ok nid →
       validateLoop a mi it bid (⟨.status (some "TIMED-OUT"), p, rp, rd, bl⟩ :: rest) =
         addPass (validateLoop a mi (it + 1) nid rest)) ∧
    (∀ l, mi - 1 ≤ it → it < mi → bl = .ok l →
       validateLoop a mi it bid (⟨.status (some "TIMED-OUT"), p, rp, rd, bl⟩ :: rest) =
         some ⟨⟨"failed", a, bid, console_url a, it + 1,
                "Build failed after " ++ toString mi ++ " attempts",
                some (if l ≠ "" then pyTail l 1000 else "No logs available")⟩,
               false, 1⟩) := by
  have hfT : (some "TIMED-OUT" : Option String) = some "FAILED" ∨
      (some "TIMED-OUT" : Option String) = some "ABORTED" ∨
      (some "TIMED-OUT" : Option String) = some "TIMED-OUT" :=
    Or.inr (Or.inr rfl)
  have hfF : (some "FAILED" : Option String) = some "FAILED" ∨
      (some "FAILED" : Option String) = some "ABORTED" ∨
      (some "FAILED" : Option String) = some "TIMED-OUT" :=
    Or.inl rfl
  refine ⟨?_, ?_, ?_⟩
  · by_cases hlt : it < mi
    · cases bl with
      | error m =>
        rw [validateLoop_fail_logerr hlt hfT, validateLoop_fail_logerr hlt hfF]
      | ok l =>
        by_cases hlast : it ≥ mi - 1
        · rw [validateLoop_fail_last hlt hfT hlast,
              validateLoop_fail_last hlt hfF hlast]
        · cases rd with
          | error m =>
            rw [validateLoop_fail_repair_error hlt hfT hlast,
                validateLoop_fail_repair_error hlt hfF hlast]
          | ok nid =>
            rw [validateLoop_fail_repair_ok hlt hfT hlast,
                validateLoop_fail_repair_ok hlt hfF hlast]
    · rw [validateLoop_fallback hlt, validateLoop_fallback hlt]
  · intro l nid hit hbl hrd
    subst hbl
    subst hrd
    exact validateLoop_fail_repair_ok (by omega) hfT (by omega)
  · intro l hge hlt hbl
    subst hbl
    exact validateLoop_fail_last hlt hfT (by omega)

/-- C4 witness: the three conclusions at a concrete one-pass trace. -/
theorem C4_witness :
    (validateLoop "actor1" 1 0 "build1" [timedOutEnv] =
       validateLoop "actor1" 1 0 "build1" [failedEnv]) ∧
    ((0 : Int) < 2 - 1 ∧
      validateLoop "actor1" 2 0 "build1" (timedOutEnv :: [succEnv]) =
        addPass (validateLoop "actor1" 2 1 "build2" [succEnv])) ∧
    ((1 : Int) - 1 ≤ 0 ∧ (0 : Int) < 1 ∧
      validateLoop "actor1" 1 0 "build1" [timedOutEnv] =
        some ⟨⟨"failed", "actor1", "build1", console_url "actor1", 1,
               "Build failed after " ++ toString (1 : Int) ++ " attempts",
               some (if "build log" ≠ "" then pyTail "build log" 1000
                     else "No logs available")⟩, false, 1⟩) :=
  ⟨(@C4_timed_out_is_build_deficiency "actor1" "build1" 1 0 okProbe .parsedNonDict
      (.ok "build2") (.ok "build log") []).1,
   ⟨by decide,
    (@C4_timed_out_is_build_deficiency "actor1" "build1" 2 0 okProbe .parsedNonDict
       (.ok "build2") (.ok "build log") [succEnv]).2.1 "build log" "build2"
      (by decide) rfl rfl⟩,
   ⟨by decide, by decide,
    (@C4_timed_out_is_build_deficiency "actor1" "build1" 1 0 okProbe .parsedNonDict
       (.ok "build2") (.ok "build log") []).2.2 "build log" (by decide) (by decide) rfl⟩⟩



/-- C5 counterexample: a response that is a syntactically valid JSON object
whose key `evil.txt` is NOT among the generated file paths is merged rather
than discarded — the repair's output differs from the fresh FileSet and
carries the foreign path, refuting the claim for that response shape. -/
theorem C5_counterexample :
    fix_build_errors sampleFresh (.parsed [("evil.txt", "injected")]) ≠ sampleFresh ∧
      "evil.txt" ∉ sampleFresh.map Prod.fst ∧
      dictGet (fix_build_errors sampleFresh (.parsed [("evil.txt", "injected")]))
          "evil.txt" = some "injected" := by
  refine ⟨by decide, by decide, by decide⟩

/-- C5 (amended): any repair-service response that does not parse as a JSON
object — a raised service exception, syntactically invalid JSON, or a JSON
value that is not an object — is absorbed without raising out of the loop,
and both repair operations return the unmodified freshly generated FileSet
(the functions are total: the no-op fallback, not an exception).  A parsed
object, however, is merged whether or not its keys are known paths. -/
theorem C5_nonobject_fallback (fresh : FileSet) (m : String) :
    fix_build_errors fresh (.serviceError m) = fresh ∧
      fix_build_errors fresh (.parseError m) = fresh ∧
      fix_build_errors fresh .parsedNonDict = fresh ∧
      fix_runtime_errors fresh (.serviceError m) = fresh ∧
      fix_runtime_errors fresh (.parseError m) = fresh ∧
      fix_runtime_errors fresh .parsedNonDict = fresh :=
  ⟨rfl, rfl, rfl, rfl, rfl, rfl⟩

/-- C6: if the first build's terminal status is `SUCCEEDED` and the probe
run's dataset has a positive item count, the loop returns immediately with
`status = "success"`, `iterations = 1`, and no error field. -/
theorem C6_first_build_success {deployment : Deployment} {max_iterations : Int}
    {env : PassEnv} {rest : List PassEnv} {run : RunInfo} {d : String} {n : Nat}
    (hmi : 1 ≤ max_iterations)
    (hw : env.wait = .status (some "SUCCEEDED"))
    (hc : env.probe.callRun = .ok run) (hst : run.status = some "SUCCEEDED")
    (hd : run.defaultDatasetId = some d) (hne : d ≠ "")
    (hi : env.probe.itemCount = .ok n) (hn : 0 < n) :
    validate_and_fix deployment max_iterations (env :: rest) =
      some ⟨⟨"success", deployment.actor_id, deployment.build_id,
             console_url deployment.actor_id, 1,
             "Actor built and tested successfully (" ++ toString n ++ " items)",
             none⟩, false, 1⟩ := by
  obtain ⟨w, p, rp, rd, bl⟩ := env
  simp only at hw hc hi
  subst hw
  have hpos := test_actor_run_pos hc hst hd hne hi hn
  unfold validate_and_fix
  rw [validateLoop_succ_pass (by omega) hpos.1, hpos.2]
  norm_num

/-- C6 witness: the one-pass success trace. -/
theorem C6_witness :
    1 ≤ (3 : Int) ∧
      validate_and_fix sampleDeployment 3 [succEnv] =
        some ⟨⟨"success", sampleDeployment.actor_id, sampleDeployment.build_id,
               console_url sampleDeployment.actor_id, 1,
               "Actor built and tested successfully (" ++ toString (5 : Nat) ++ " items)",
               none⟩, false, 1⟩ :=
  ⟨by decide,
   @C6_first_build_success sampleDeployment 3 succEnv []
     ⟨"run1", some "SUCCEEDED", some "dataset1"⟩ "dataset1" 5
     (by decide) rfl rfl rfl rfl (by decide) rfl (by decide)⟩

/-- C7: a raised polling timeout, or an exception raised by any step the
loop does not handle locally — polling, the build-log fetch, or the
redeploy following a repair — makes the loop return immediately with
`status = "failed"` and the exception's message as the error payload,
consuming exactly this one pass regardless of remaining budget (the result
does not depend on the rest of the trace). -/
theorem C7_fatal_error_immediate {a bid : String} {mi it : Int} {m : String}
    {env : PassEnv} {rest : List PassEnv}
    (hlt : it < mi)
    (hcase :
      env.wait = .timeoutError m ∨
      env.wait = .exn m ∨
      (∃ st, env.wait = .status st ∧
        (st = some "FAILED" ∨ st = some "ABORTED" ∨ st = some "TIMED-OUT") ∧
        env.buildLog = .error m) ∨
      (∃ st l, env.wait = .status st ∧
        (st = some "FAILED" ∨ st = some "ABORTED" ∨ st = some "TIMED-OUT") ∧
        env.buildLog = .ok l ∧ it < mi - 1 ∧ env.redeploy = .error m) ∨
      (env.wait = .status (some "SUCCEEDED") ∧
        (test_actor_run env.probe).success = false ∧ it < mi - 1 ∧
        env.redeploy = .error m)) :
    ∃ out, validateLoop a mi it bid (env :: rest) = some out ∧
      out.result.status = "failed" ∧ out.result.error = some m ∧
      out.passes = 1 := by
  obtain ⟨w, p, rp, rd, bl⟩ := env
  simp only at hcase
  rcases hcase with hw | hw | ⟨st, hw, hf, hbl⟩ | ⟨st, l, hw, hf, hbl, hit, hrd⟩ |
    ⟨hw, hs, hit, hrd⟩
  · subst hw
    exact ⟨_, validateLoop_timeout hlt, rfl, rfl, rfl⟩
  · subst hw
    exact ⟨_, validateLoop_exn hlt, rfl, rfl, rfl⟩
  · subst hw
    subst hbl
    exact ⟨_, validateLoop_fail_logerr hlt hf, rfl, rfl, rfl⟩
  · subst hw
    subst hbl
    subst hrd
    exact ⟨_, validateLoop_fail_repair_error hlt hf (by omega), rfl, rfl, rfl⟩
  · subst hw
    subst hrd
    exact ⟨_, validateLoop_succ_repair_error hlt hs (by omega), rfl, rfl, rfl⟩

/-- C7 witness: a polling timeout at the first pass of a budget-5 run. -/
theorem C7_witness :
    (0 : Int) < 5 ∧
      ∃ out, validateLoop "actor1" 5 0 "build1" (timeoutEnv :: [succEnv]) = some out ∧
        out.result.status = "failed" ∧ out.result.error = some "poll timeout" ∧
        out.passes = 1 :=
  ⟨by decide,
   @C7_fatal_error_immediate "actor1" "build1" 5 0 "poll timeout" timeoutEnv [succEnv]
     (by decide) (Or.inl rfl)⟩



/-- C8: merging a patch (a path-to-content mapping; `json.loads` yields
unique keys) over any freshly generated FileSet maps each patched path to
exactly the patch's value and leaves every other path at exactly the fresh
generation's content — for both repair operations. -/
theorem C8_patch_overlay {fresh : FileSet} {kvs : List (String × String)}
    (hnd : (kvs.map Prod.fst).Nodup) :
    (∀ p v, (p, v) ∈ kvs →
      dictGet (fix_build_errors fresh (.parsed kvs)) p = some v ∧
      dictGet (fix_runtime_errors fresh (.parsed kvs)) p = some v) ∧
    (∀ p, p ∉ kvs.map Prod.fst →
      dictGet (fix_build_errors fresh (.parsed kvs)) p = dictGet fresh p ∧
      dictGet (fix_runtime_errors fresh (.parsed kvs)) p = dictGet fresh p) := by
  constructor
  · intro p v hmem
    exact ⟨applyPatch_mem kvs fresh p v hnd hmem,
           applyPatch_mem kvs fresh p v hnd hmem⟩
  · intro p hp
    exact ⟨applyPatch_not_mem kvs fresh p hp,
           applyPatch_not_mem kvs fresh p hp⟩

/-- C8 witness: a one-entry patch over the sample FileSet. -/
theorem C8_witness :
    ([("src/main.py", "patched")].map Prod.fst).Nodup ∧
      dictGet (fix_build_errors sampleFresh (.parsed [("src/main.py", "patched")]))
          "src/main.py" = some "patched" ∧
      dictGet (fix_build_errors sampleFresh (.parsed [("src/main.py", "patched")]))
          "README.md" = dictGet sampleFresh "README.md" :=
  ⟨by decide,
   ((@C8_patch_overlay sampleFresh [("src/main.py", "patched")] (by decide)).1
     "src/main.py" "patched" (by decide)).1,
   ((@C8_patch_overlay sampleFresh [("src/main.py", "patched")] (by decide)).2
     "README.md" (by decide)).1⟩

/-- C9 counterexample: the claim fails on a Requirements record with two
fields of the same name: for fields [(a, default x), (a, default y)] the
synthesized probe input is exactly the singleton mapping a to y — it does
not contain the pair (a, x) required by the claim for the first field. -/
theorem C9_counterexample :
    prepare_test_input ⟨[⟨some "a", some "x"⟩, ⟨some "a", some "y"⟩]⟩ =
        [(some "a", "y")] ∧
      dictGet (prepare_test_input ⟨[⟨some "a", some "x"⟩, ⟨some "a", some "y"⟩]⟩)
          (some "a") ≠ some "x" := by
  refine ⟨by decide, by decide⟩

/-- C9 (amended): for every Requirements record whose declared field names
are pairwise distinct, the synthesized probe input maps each field with a
non-null default to exactly that default, has no entry at all for a field
without a default, and contains no key beyond the declared fields with
non-null defaults. -/
theorem C9_test_input_synthesis {requirements : Requirements}
    (hnd : (requirements.input_fields.map InputField.name).Nodup) :
    (∀ f ∈ requirements.input_fields,
      (∀ v, f.default = some v →
        dictGet (prepare_test_input requirements) f.name = some v) ∧
      (f.default = none →
        dictGet (prepare_test_input requirements) f.name = none)) ∧
    (∀ p, dictGet (prepare_test_input requirements) p ≠ none →
      ∃ f ∈ requirements.input_fields, f.name = p ∧ f.default ≠ none) := by
  constructor
  · intro f hf
    constructor
    · intro v hv
      exact prep_aux_some requirements.input_fields [] f v hnd hf hv
    · intro hv
      refine prep_aux_none requirements.input_fields [] f.name ?_ rfl
      intro g hg hgname
      have hgf : g = f := List.inj_on_of_nodup_map hnd hg hf hgname
      rw [hgf]
      exact hv
  · intro p hp
    rcases prep_aux_keys requirements.input_fields [] p hp with h | h
    · exact absurd rfl h
    · exact h

/-- C9 witness: the spec's own example, fields [(a, default x), (b, no
default)]: probe input is exactly the singleton mapping a to x. -/
theorem C9_witness :
    ((sampleRequirements.input_fields.map InputField.name).Nodup) ∧
      dictGet (prepare_test_input sampleRequirements) (some "a") = some "x" ∧
      dictGet (prepare_test_input sampleRequirements) (some "b") = none :=
  ⟨by decide,
   ((@C9_test_input_synthesis sampleRequirements (by decide)).1
     ⟨some "a", some "x"⟩ (by decide)).1 "x" rfl,
   ((@C9_test_input_synthesis sampleRequirements (by decide)).1
     ⟨some "b", none⟩ (by decide)).2 rfl⟩

/-- C10: with `max_iterations ≤ 0` the loop body never runs — no polling,
probing, or repair (zero passes) — and the call returns the post-loop
fallback: `status = "failed"`, `iterations = max_iterations`, the input
deployment's ids, and no error field; with `max_iterations ≥ 1` that
post-loop fallback return is unreachable — every returned record comes from
a return inside the loop body. -/
theorem C10_fallback_behavior (deployment : Deployment) (max_iterations : Int)
    (envs : List PassEnv) :
    (max_iterations ≤ 0 →
      validate_and_fix deployment max_iterations envs =
        some ⟨⟨"failed", deployment.actor_id, deployment.build_id,
               console_url deployment.actor_id, max_iterations,
               "Could not fix errors in " ++ toString max_iterations ++ " attempts",
               none⟩, true, 0⟩) ∧
    (1 ≤ max_iterations →
      ∀ out, validate_and_fix deployment max_iterations envs = some out →
        out.viaFallback = false) := by
  constructor
  · intro h
    unfold validate_and_fix
    exact validateLoop_fallback (by omega)
  · intro h out hres
    exact loop_no_fallback envs 0 deployment.build_id out (by omega) hres

/-- C10 witness: the fallback at cap 0 and an in-loop return at cap 1. -/
theorem C10_witness :
    ((0 : Int) ≤ 0 ∧
      validate_and_fix sampleDeployment 0 [succEnv] =
        some ⟨⟨"failed", sampleDeployment.actor_id, sampleDeployment.build_id,
               console_url sampleDeployment.actor_id, 0,
               "Could not fix errors in " ++ toString (0 : Int) ++ " attempts",
               none⟩, true, 0⟩) ∧
    (1 ≤ (1 : Int) ∧
      (⟨⟨"success", "actor1", "build1", console_url "actor1", 1,
         "Actor built and tested successfully (5 items)", none⟩,
        false, 1⟩ : LoopOut).viaFallback = false) :=
  ⟨⟨by decide, (C10_fallback_behavior sampleDeployment 0 [succEnv]).1 (by decide)⟩,
   ⟨by decide,
    (C10_fallback_behavior sampleDeployment 1 [succEnv]).2 (by decide)
      ⟨⟨"success", "actor1", "build1", console_url "actor1", 1,
         "Actor built and tested successfully (5 items)", none⟩, false, 1⟩
      (by decide)⟩⟩


end Spielberg
